import Mathlib

/-!
Verification of the resilient bootstrap sequencer and upload admission gate
of the police-records management backend (`src/server/index.ts`).

The embedding is shallow: the straight-line async bootstrap of
`startServer` becomes a pure function from a `BootConfig` (the outcome of
every external call the bootstrap makes) to a `BootOutcome`; the multer
upload configurations become pure admission functions over the file's
original name and declared size; the `/api/health` handler becomes a pure
function of the `MONGODB_URI` presence it reads.
-/

namespace Dot

/-! ## Character and string helpers used by the upload gate

`src/server/index.ts` calls `path.extname(file.originalname).toLowerCase()`.
Both `path.extname` and `String.prototype.toLowerCase` are platform
library functions (not repository code); they are modelled here after the
Node.js POSIX `path.extname` semantics and ASCII lower-casing (the
extension whitelists are ASCII). -/

/-- ASCII lower-casing of one character, as `toLowerCase` acts on the
ASCII range. -/
def lowerChar (c : Char) : Char :=
  if 'A' ≤ c ∧ c ≤ 'Z' then Char.ofNat (c.toNat + 32) else c

/-- Models JS `String.prototype.toLowerCase` on the ASCII range. -/
def toLowerCase (s : String) : String :=
  String.mk (s.data.map lowerChar)

/-- Is the character the POSIX path separator. -/
def isSlash (c : Char) : Bool := c == '/'

/-- Is the character not the POSIX path separator. -/
def notSlash (c : Char) : Bool := c != '/'

/-- Is the character not a dot. -/
def notDot (c : Char) : Bool := c != '.'

/-- The extension of a basename given in reversed character order,
following Node's `path.extname` rules: empty when the basename has no
dot, when its last dot is its first character (a dotfile such as
`.bashrc`), or when the basename is exactly `..`; otherwise the suffix
of the basename from its last dot.  On the reversed basename the "last
dot" is the first dot, and `takeWhile notDot` is the reversed run of
characters after it. -/
def extCore (bRev : List Char) : List Char :=
  if bRev.length = (bRev.takeWhile notDot).length then []
  else if bRev.length = (bRev.takeWhile notDot).length + 1 then []
  else if bRev = ['.', '.'] then []
  else '.' :: (bRev.takeWhile notDot).reverse

/-- Models Node's POSIX `path.extname` on the character list of the
path: drop trailing separators, keep the basename (the suffix after the
last separator, read reversed), and extract its extension. -/
def extnameL (s : List Char) : List Char :=
  extCore ((s.reverse.dropWhile isSlash).takeWhile notSlash)

/-- Models Node's POSIX `path.extname` on strings. -/
def extname (s : String) : String :=
  String.mk (extnameL s.data)

/-! ## Upload admission gate (the two multer configurations) -/

/-- The machine-readable reasons an upload can be refused. -/
inductive UploadErrorKind where
  | UnsupportedFileType
  | PayloadTooLarge
  deriving DecidableEq, Repr

/-- The decision of the admission gate for one offered file. -/
structure UploadDecision where
  accepted : Bool
  reason : Option UploadErrorKind
  deriving DecidableEq, Repr

/-- `allowedTypes` of the geofile multer `fileFilter`
(`src/server/index.ts` line 47). -/
def geofileAllowedTypes : List String :=
  [".shp", ".kml", ".geojson", ".csv", ".gpx", ".kmz", ".gml"]

/-- `limits.fileSize` of the geofile multer configuration: 50 MiB. -/
def geofileFileSizeLimit : Nat := 50 * 1024 * 1024

/-- `allowedImageTypes` of the custodial multer `fileFilter`
(`src/server/index.ts` line 64). -/
def custodialAllowedTypes : List String :=
  [".jpg", ".jpeg", ".png"]

/-- `limits.fileSize` of the custodial multer configuration: 5 MiB. -/
def custodialFileSizeLimit : Nat := 5 * 1024 * 1024

/-- The shared shape of both `fileFilter` callbacks:
`allowedTypes.includes(path.extname(file.originalname).toLowerCase())`. -/
def extPassesFilter (allowed : List String) (originalname : String) : Bool :=
  allowed.contains (toLowerCase (extname originalname))

/-- The geofile `fileFilter` of the `upload` multer instance. -/
def geofileFileFilter (originalname : String) : Bool :=
  extPassesFilter geofileAllowedTypes originalname

/-- The photo `fileFilter` of the `uploadCustodial` multer instance. -/
def custodialFileFilter (originalname : String) : Bool :=
  extPassesFilter custodialAllowedTypes originalname

/-- One multer admission run for a single file, combining the
`fileFilter` (invoked on the file's metadata when the part is
encountered, before its bytes stream) with the `limits.fileSize`
ceiling (enforced on the streamed bytes, raising `LIMIT_FILE_SIZE` once
the ceiling is exceeded).  The extension check therefore runs first and
never consults the size. -/
def evaluateUpload (allowed : List String) (sizeLimit : Nat)
    (originalname : String) (declaredSize : Nat) : UploadDecision :=
  if extPassesFilter allowed originalname = false then
    { accepted := false, reason := some UploadErrorKind.UnsupportedFileType }
  else if sizeLimit < declaredSize then
    { accepted := false, reason := some UploadErrorKind.PayloadTooLarge }
  else
    { accepted := true, reason := none }

/-- Admission of one file by the geospatial-upload category. -/
def geofileEvaluate (originalname : String) (declaredSize : Nat) : UploadDecision :=
  evaluateUpload geofileAllowedTypes geofileFileSizeLimit originalname declaredSize

/-- Admission of one file by the identification-photo category. -/
def custodialEvaluate (originalname : String) (declaredSize : Nat) : UploadDecision :=
  evaluateUpload custodialAllowedTypes custodialFileSizeLimit originalname declaredSize

/-! ## Bootstrap sequencer (`startServer` in `src/server/index.ts`)

The bootstrap is one straight-line async function.  Every external call
it makes (the MongoDB connection, each route-registration function, the
optional dynamic import, `setupVite`, the two seed functions) either
returns or throws; a `BootConfig` fixes the outcome of each such call
for one startup run, and `startServer` below replays the control flow of
the source on those outcomes. -/

/-- Severity of a console log line (`console.log` / `console.warn` /
`console.error`). -/
inductive LogLevel where
  | info
  | warn
  | error
  deriving DecidableEq, Repr

/-- The two static-serving strategies of the source: the production
branch (`express.static` over the prebuilt bundle plus the `app.get('*')`
catch-all) and the development branch (`setupVite`). -/
inductive StaticStrategy where
  | prebuiltBundle
  | viteDev
  deriving DecidableEq, Repr

/-- Outcomes of the external calls made by one startup run. -/
structure BootConfig where
  /-- `process.env.MONGODB_URI` is set to a non-empty string. -/
  hasMongoUri : Bool
  /-- `connectToMongoDB()` resolves rather than throws. -/
  connectOk : Bool
  /-- `registerMongoDBRoutes` returns rather than throws. -/
  mongoRoutesOk : Bool
  /-- `registerEvidenceRoutes` returns rather than throws. -/
  evidenceRoutesOk : Bool
  /-- `registerCustodialRoutes` returns rather than throws. -/
  custodialRoutesOk : Bool
  /-- the dynamic `import('./api-routes.js')` resolves. -/
  additionalRoutesOk : Bool
  /-- `process.env.NODE_ENV === 'production'`. -/
  nodeEnvProduction : Bool
  /-- `setupVite` resolves rather than throws. -/
  viteOk : Bool
  /-- `seedGeofiles()` resolves rather than throws. -/
  seedGeofilesOk : Bool
  /-- `seedAdminUser()` resolves rather than throws. -/
  seedAdminOk : Bool
  deriving DecidableEq, Repr

/-- The observable state a startup run has built: the `mongoConnected`
flag, which route groups were registered, the chosen static strategy,
how far seeding got, and the console lines relevant to the claims. -/
structure ServerState where
  mongoConnected : Bool := false
  mongoRoutesRegistered : Bool := false
  evidenceRoutesRegistered : Bool := false
  custodialRoutesRegistered : Bool := false
  additionalRoutesRegistered : Bool := false
  staticStrategy : Option StaticStrategy := none
  geofilesSeedAttempted : Bool := false
  geofilesSeeded : Bool := false
  adminSeedAttempted : Bool := false
  adminSeeded : Bool := false
  logs : List (LogLevel × String) := []
  deriving DecidableEq, Repr

/-- How a startup run ends: `server.listen` is reached, or
`process.exit(1)` runs from the fatal catch. -/
inductive BootOutcome where
  | listening (st : ServerState)
  | exited (code : Nat) (st : ServerState)
  deriving DecidableEq, Repr

/-- The state the run had built when it ended. -/
def BootOutcome.state : BootOutcome → ServerState
  | .listening st => st
  | .exited _ st => st

/-- Did the run reach `server.listen`. -/
def BootOutcome.isListening : BootOutcome → Bool
  | .listening _ => true
  | .exited _ _ => false

/-- The exit code when the run terminated the process. -/
def BootOutcome.exitCode : BootOutcome → Option Nat
  | .listening _ => none
  | .exited c _ => some c

/-- The fatal catch of `startServer`: `console.error('❌ Failed to start
server:', ...)` then `process.exit(1)`. -/
def fatalExit (st : ServerState) : BootOutcome :=
  .exited 1 { st with logs := st.logs ++ [(LogLevel.error, "Failed to start server")] }

/-- The tail of `startServer` from the seeding block on: seeding runs
only when `mongoConnected`; both seed calls sit inside one `try` whose
`catch` logs `'⚠️ Failed to seed data:'` as a warning, so a throw in
`seedGeofiles` skips `seedAdminUser`; then `server.listen` runs and its
callback logs the MongoDB status of the run. -/
def finishSeedingAndListen (cfg : BootConfig) (st : ServerState) : BootOutcome :=
  let listen : ServerState → BootOutcome := fun st' =>
    .listening { st' with
      logs := st'.logs ++
        [(LogLevel.info,
          if st'.mongoConnected then "MongoDB Status: Connected"
          else "MongoDB Status: Disconnected (Fallback Mode)")] }
  if st.mongoConnected then
    let st1 := { st with geofilesSeedAttempted := true }
    if cfg.seedGeofilesOk then
      let st2 := { st1 with geofilesSeeded := true, adminSeedAttempted := true }
      if cfg.seedAdminOk then
        listen { st2 with adminSeeded := true }
      else
        listen { st2 with logs := st2.logs ++ [(LogLevel.warn, "Failed to seed data")] }
    else
      listen { st1 with logs := st1.logs ++ [(LogLevel.warn, "Failed to seed data")] }
  else
    listen st

/-- The bootstrap sequencer `startServer`: connect (failure is caught
and logged as a warning), then inside one `try`: conditional MongoDB
route registration, evidence routes, custodial routes, the best-effort
dynamic import of additional routes (its own inner `try`), the
static-strategy choice on `NODE_ENV`, and seeding; any throw escaping to
the outer `catch` logs an error and exits the process with status 1. -/
def startServer (cfg : BootConfig) : BootOutcome :=
  let st0 : ServerState := {}
  let st1 :=
    if cfg.connectOk then { st0 with mongoConnected := true }
    else { st0 with logs := st0.logs ++ [(LogLevel.warn, "MongoDB connection failed")] }
  if st1.mongoConnected && !cfg.mongoRoutesOk then fatalExit st1
  else
    let st2 := if st1.mongoConnected then { st1 with mongoRoutesRegistered := true } else st1
    if !cfg.evidenceRoutesOk then fatalExit st2
    else
      let st3 := { st2 with evidenceRoutesRegistered := true }
      if !cfg.custodialRoutesOk then fatalExit st3
      else
        let st4 := { st3 with custodialRoutesRegistered := true }
        let st5 :=
          if cfg.additionalRoutesOk then { st4 with additionalRoutesRegistered := true }
          else { st4 with logs := st4.logs ++
            [(LogLevel.info, "Additional routes file not found - continuing without it")] }
        if cfg.nodeEnvProduction then
          finishSeedingAndListen cfg { st5 with staticStrategy := some StaticStrategy.prebuiltBundle }
        else
          if !cfg.viteOk then fatalExit st5
          else
            finishSeedingAndListen cfg { st5 with staticStrategy := some StaticStrategy.viteDev }

/-! ## Health endpoint and production catch-all -/

/-- The JSON body (plus HTTP status) produced by the
`app.get('/api/health')` handler. -/
structure HealthResponse where
  httpStatus : Nat
  status : String
  mongodb : String
  message : String
  deriving DecidableEq, Repr

/-- The `/api/health` handler: `res.json` (HTTP 200) with a `mongodb`
field computed from `process.env.MONGODB_URI ? 'connected' :
'disconnected'` — the presence of the connection string, read at request
time. -/
def healthHandler (hasMongoUri : Bool) : HealthResponse :=
  let mongoStatus := if hasMongoUri then "connected" else "disconnected"
  { httpStatus := 200
    status := "OK"
    mongodb := mongoStatus
    message :=
      if mongoStatus = "connected" then "All systems operational"
      else "Running in fallback mode - update MongoDB URI in .env" }

/-- Models JS `String.prototype.startsWith` on the request path. -/
def pathStartsWith (p pre : String) : Bool :=
  pre.data.isPrefixOf p.data

/-- What the production catch-all can send. -/
inductive CatchAllResult where
  | entryDocument
  deriving DecidableEq, Repr

/-- The production `app.get('*')` handler: `res.sendFile` of the bundle
entry document when the path does not start with `/api`; otherwise the
handler body does nothing and no response is produced. -/
def productionCatchAll (reqPath : String) : Option CatchAllResult :=
  if !(pathStartsWith reqPath "/api") then some CatchAllResult.entryDocument
  else none

/-! ## Concrete startup runs used by witnesses and counterexamples -/

/-- A run with the URI set but the connection attempt failing, every
other external call succeeding, in production mode. -/
def cfgUriSetConnFails : BootConfig :=
  { hasMongoUri := true, connectOk := false, mongoRoutesOk := true,
    evidenceRoutesOk := true, custodialRoutesOk := true, additionalRoutesOk := true,
    nodeEnvProduction := true, viteOk := true, seedGeofilesOk := true, seedAdminOk := true }

/-- A fully successful production run. -/
def cfgAllOkProd : BootConfig :=
  { hasMongoUri := true, connectOk := true, mongoRoutesOk := true,
    evidenceRoutesOk := true, custodialRoutesOk := true, additionalRoutesOk := true,
    nodeEnvProduction := true, viteOk := true, seedGeofilesOk := true, seedAdminOk := true }

/-- A connected production run whose `seedGeofiles` call throws. -/
def cfgGeofileSeedFails : BootConfig :=
  { hasMongoUri := true, connectOk := true, mongoRoutesOk := true,
    evidenceRoutesOk := true, custodialRoutesOk := true, additionalRoutesOk := true,
    nodeEnvProduction := true, viteOk := true, seedGeofilesOk := false, seedAdminOk := true }

/-- A production run whose `registerEvidenceRoutes` call throws. -/
def cfgEvidenceFails : BootConfig :=
  { hasMongoUri := true, connectOk := true, mongoRoutesOk := true,
    evidenceRoutesOk := false, custodialRoutesOk := true, additionalRoutesOk := true,
    nodeEnvProduction := true, viteOk := true, seedGeofilesOk := true, seedAdminOk := true }

/-! ## Helper lemmas on list scanning -/

theorem takeWhile_append_of_all {p : Char → Bool} :
    ∀ (l₁ l₂ : List Char), (∀ a ∈ l₁, p a = true) →
      (l₁ ++ l₂).takeWhile p = l₁ ++ l₂.takeWhile p := by
  intro l₁
  induction l₁ with
  | nil => intro l₂ _; simp
  | cons x xs ih =>
    intro l₂ h
    have hx : p x = true := h x (by simp)
    simp only [List.cons_append, List.takeWhile_cons, hx, if_true]
    rw [ih l₂ (fun a ha => h a (by simp [ha]))]

theorem dropWhile_isSlash_head_not_slash (a : Char) (l : List Char) (ha : a ≠ '/') :
    (a :: l).dropWhile isSlash = a :: l := by
  have : isSlash a = false := by simp [isSlash, ha]
  simp [List.dropWhile_cons, this]

/-- `extname` of `base ++ "." ++ x ++ "." ++ y` is `"." ++ y` whenever
the final suffix `y` is nonempty and free of dots and separators and the
middle part `x` is free of separators: only the final suffix matters. -/
theorem extnameL_last_component (base x y : List Char)
    (hy : y ≠ []) (hyd : ∀ c ∈ y, c ≠ '.') (hys : ∀ c ∈ y, c ≠ '/')
    (hx : ∀ c ∈ x, c ≠ '/') :
    extnameL (base ++ '.' :: x ++ '.' :: y) = '.' :: y := by
  unfold extnameL
  have hrev : (base ++ '.' :: x ++ '.' :: y).reverse
      = y.reverse ++ '.' :: (x.reverse ++ '.' :: base.reverse) := by
    simp
  rw [hrev]
  obtain ⟨c, t, hct⟩ : ∃ c t, y.reverse = c :: t := by
    cases hyr : y.reverse with
    | nil => exact absurd (List.reverse_eq_nil_iff.mp hyr) hy
    | cons c t => exact ⟨c, t, rfl⟩
  have hdrop : (y.reverse ++ '.' :: (x.reverse ++ '.' :: base.reverse)).dropWhile isSlash
      = y.reverse ++ '.' :: (x.reverse ++ '.' :: base.reverse) := by
    rw [hct, List.cons_append]
    refine dropWhile_isSlash_head_not_slash _ _ ?_
    have : c ∈ y.reverse := by rw [hct]; simp
    exact hys c (List.mem_reverse.mp this)
  rw [hdrop]
  have htake : (y.reverse ++ '.' :: (x.reverse ++ '.' :: base.reverse)).takeWhile notSlash
      = y.reverse ++ '.' :: (x.reverse ++ '.' :: (base.reverse.takeWhile notSlash)) := by
    have h1 : ∀ a ∈ y.reverse ++ '.' :: (x.reverse ++ ['.']), notSlash a = true := by
      intro a ha
      have hane : a ≠ '/' := by
        rcases List.mem_append.mp ha with hA | hB
        · exact hys a (List.mem_reverse.mp hA)
        · rcases List.mem_cons.mp hB with hB1 | hB2
          · rw [hB1]; decide
          · rcases List.mem_append.mp hB2 with hC | hD
            · exact hx a (List.mem_reverse.mp hC)
            · rw [List.mem_singleton.mp hD]; decide
      simp [notSlash, hane]
    have hsplit : y.reverse ++ '.' :: (x.reverse ++ '.' :: base.reverse)
        = (y.reverse ++ '.' :: (x.reverse ++ ['.'])) ++ base.reverse := by
      simp
    rw [hsplit, takeWhile_append_of_all _ _ h1]
    simp
  rw [htake]
  unfold extCore
  have hedot : (y.reverse ++ '.' :: (x.reverse ++ '.' :: (base.reverse.takeWhile notSlash))).takeWhile notDot
      = y.reverse := by
    have h1 : ∀ a ∈ y.reverse, notDot a = true := by
      intro a ha
      have := hyd a (List.mem_reverse.mp ha)
      simp [notDot, this]
    rw [takeWhile_append_of_all _ _ h1]
    simp [List.takeWhile_cons, notDot]
  rw [hedot]
  have hylen : 1 ≤ y.reverse.length := by
    rw [List.length_reverse]
    exact List.length_pos.mpr hy
  have hlen : (y.reverse ++ '.' :: (x.reverse ++ '.' :: (base.reverse.takeWhile notSlash))).length
      = y.reverse.length + x.reverse.length + (base.reverse.takeWhile notSlash).length + 2 := by
    rw [List.length_append, List.length_cons, List.length_append, List.length_cons]
    omega
  rw [if_neg (by rw [hlen]; omega), if_neg (by rw [hlen]; omega), if_neg ?_]
  · simp
  · intro hcontra
    have h2 := congrArg List.length hcontra
    rw [hlen] at h2
    simp only [List.length_cons, List.length_nil] at h2
    omega

/-- String-level version of `extnameL_last_component`. -/
theorem extname_append_last (base x y : String)
    (hy : y.data ≠ []) (hyd : ∀ c ∈ y.data, c ≠ '.') (hys : ∀ c ∈ y.data, c ≠ '/')
    (hx : ∀ c ∈ x.data, c ≠ '/') :
    extname (base ++ "." ++ x ++ "." ++ y) = "." ++ y := by
  unfold extname
  have hdot : ".".data = ['.'] := rfl
  have hdata : (base ++ "." ++ x ++ "." ++ y).data
      = base.data ++ '.' :: x.data ++ '.' :: y.data := by
    simp [String.data_append, hdot]
  rw [hdata, extnameL_last_component base.data x.data y.data hy hyd hys hx]
  cases y with
  | mk d => rfl

/-! ## Claims C4, C5, C9, C10 about the admission gate -/

/-- C4: a file offered to the geospatial-upload category whose
lower-cased extension is not one of `.shp .kml .geojson .csv .gpx .kmz
.gml` is rejected with `UnsupportedFileType`, for every declared size:
the extension check does not consult the 50 MiB ceiling. -/
theorem c4_geofile_unsupported_extension_rejected
    (originalname : String) (declaredSize : Nat)
    (h : geofileAllowedTypes.contains (toLowerCase (extname originalname)) = false) :
    geofileEvaluate originalname declaredSize =
      { accepted := false, reason := some UploadErrorKind.UnsupportedFileType } := by
  unfold geofileEvaluate evaluateUpload extPassesFilter
  rw [if_pos h]

/-- Witness for C4 at the concrete file `malware.exe`, with two declared
sizes on either side of the 50 MiB ceiling. -/
theorem c4_witness :
    geofileAllowedTypes.contains (toLowerCase (extname "malware.exe")) = false
    ∧ geofileEvaluate "malware.exe" 1 =
        { accepted := false, reason := some UploadErrorKind.UnsupportedFileType }
    ∧ geofileEvaluate "malware.exe" (60 * 1024 * 1024) =
        { accepted := false, reason := some UploadErrorKind.UnsupportedFileType } :=
  ⟨by decide,
   c4_geofile_unsupported_extension_rejected "malware.exe" 1 (by decide),
   c4_geofile_unsupported_extension_rejected "malware.exe" (60 * 1024 * 1024) (by decide)⟩

/-- C5: the identification-photo category's ceiling is exactly
5 MiB and its whitelist exactly `.jpg .jpeg .png`; a file over the
ceiling is rejected with `PayloadTooLarge` even when its extension is
allowed. -/
theorem c5_custodial_oversize_rejected
    (originalname : String) (declaredSize : Nat)
    (hext : custodialAllowedTypes.contains (toLowerCase (extname originalname)) = true)
    (hsz : custodialFileSizeLimit < declaredSize) :
    custodialEvaluate originalname declaredSize =
      { accepted := false, reason := some UploadErrorKind.PayloadTooLarge }
    ∧ custodialAllowedTypes = [".jpg", ".jpeg", ".png"]
    ∧ custodialFileSizeLimit = 5 * 1024 * 1024 := by
  refine ⟨?_, rfl, rfl⟩
  unfold custodialEvaluate evaluateUpload extPassesFilter
  rw [if_neg (by rw [hext]; decide), if_pos hsz]

/-- Witness for C5 at a valid-extension photo one byte over the 5 MiB
ceiling. -/
theorem c5_witness :
    custodialAllowedTypes.contains (toLowerCase (extname "mugshot.jpg")) = true
    ∧ custodialFileSizeLimit < 5 * 1024 * 1024 + 1
    ∧ custodialEvaluate "mugshot.jpg" (5 * 1024 * 1024 + 1) =
        { accepted := false, reason := some UploadErrorKind.PayloadTooLarge } :=
  ⟨by decide, by decide,
   (c5_custodial_oversize_rejected "mugshot.jpg" (5 * 1024 * 1024 + 1)
     (by decide) (by decide)).1⟩

/-- C9: a filename whose extracted extension is empty is rejected by
both upload categories with `UnsupportedFileType`, the empty string
being in neither whitelist. -/
theorem c9_no_extension_rejected_by_both
    (originalname : String) (declaredSize : Nat)
    (h : extname originalname = "") :
    geofileEvaluate originalname declaredSize =
      { accepted := false, reason := some UploadErrorKind.UnsupportedFileType }
    ∧ custodialEvaluate originalname declaredSize =
      { accepted := false, reason := some UploadErrorKind.UnsupportedFileType } := by
  have hlow : toLowerCase (extname originalname) = "" := by rw [h]; rfl
  constructor
  · unfold geofileEvaluate evaluateUpload extPassesFilter
    rw [hlow, if_pos (by decide)]
  · unfold custodialEvaluate evaluateUpload extPassesFilter
    rw [hlow, if_pos (by decide)]

/-- Witness for C9 at the extensionless filename `README`. -/
theorem c9_witness :
    extname "README" = ""
    ∧ geofileEvaluate "README" 7 =
        { accepted := false, reason := some UploadErrorKind.UnsupportedFileType }
    ∧ custodialEvaluate "README" 7 =
        { accepted := false, reason := some UploadErrorKind.UnsupportedFileType } :=
  ⟨by decide,
   (c9_no_extension_rejected_by_both "README" 7 (by decide)).1,
   (c9_no_extension_rejected_by_both "README" 7 (by decide)).2⟩

/-- C10: the extension check of the admission gate inspects only the
final suffix of the filename: a file `base.X.Y` whose lower-cased final
suffix `.Y` is in the photo whitelist passes the identification-photo
`fileFilter` — and, when within the size ceiling, is accepted —
regardless of any earlier suffix `X`. -/
theorem c10_only_final_suffix_checked (base x y : String) (declaredSize : Nat)
    (hy : y.data ≠ []) (hyd : ∀ c ∈ y.data, c ≠ '.') (hys : ∀ c ∈ y.data, c ≠ '/')
    (hx : ∀ c ∈ x.data, c ≠ '/')
    (hmem : custodialAllowedTypes.contains (toLowerCase ("." ++ y)) = true)
    (hsz : declaredSize ≤ custodialFileSizeLimit) :
    custodialFileFilter (base ++ "." ++ x ++ "." ++ y) = true
    ∧ custodialEvaluate (base ++ "." ++ x ++ "." ++ y) declaredSize
        = { accepted := true, reason := none } := by
  have hfilter : custodialFileFilter (base ++ "." ++ x ++ "." ++ y) = true := by
    unfold custodialFileFilter extPassesFilter
    rw [extname_append_last base x y hy hyd hys hx]
    exact hmem
  refine ⟨hfilter, ?_⟩
  have hf : extPassesFilter custodialAllowedTypes (base ++ "." ++ x ++ "." ++ y) = true :=
    hfilter
  unfold custodialEvaluate evaluateUpload
  rw [if_neg (by rw [hf]; decide), if_neg (by omega)]

/-- Witness for C10 at the double-suffixed filename `payload.exe.jpg`,
accepted by the identification-photo category. -/
theorem c10_witness :
    ("payload" ++ "." ++ "exe" ++ "." ++ "jpg") = "payload.exe.jpg"
    ∧ custodialFileFilter ("payload" ++ "." ++ "exe" ++ "." ++ "jpg") = true
    ∧ custodialEvaluate ("payload" ++ "." ++ "exe" ++ "." ++ "jpg") 1000
        = { accepted := true, reason := none } :=
  ⟨by decide,
   c10_only_final_suffix_checked "payload" "exe" "jpg" 1000 (by decide) (by decide)
     (by decide) (by decide) (by decide) (by decide)⟩

/-! ## Claims C1, C2, C3, C6, C7, C8 about the bootstrap -/

/-- C1: on the failing input — `MONGODB_URI` set but the connection
attempt failing — the run still reaches the listen phase with
`mongoConnected = false` and its own listen callback logs `Disconnected
(Fallback Mode)`, yet `/api/health` answers 200 with `mongodb =
"connected"` (`All systems operational`), because the handler keys on
the presence of the connection string rather than on the connection
outcome of the run; the claim requires `"disconnected"` here. -/
theorem c1_health_ignores_connection_outcome :
    (startServer cfgUriSetConnFails).isListening = true
    ∧ (startServer cfgUriSetConnFails).state.mongoConnected = false
    ∧ (LogLevel.info, "MongoDB Status: Disconnected (Fallback Mode)")
        ∈ (startServer cfgUriSetConnFails).state.logs
    ∧ (healthHandler cfgUriSetConnFails.hasMongoUri).httpStatus = 200
    ∧ (healthHandler cfgUriSetConnFails.hasMongoUri).mongodb = "connected"
    ∧ (healthHandler cfgUriSetConnFails.hasMongoUri).mongodb ≠ "disconnected" := by
  decide

/-- C2 counterexample: in a connected run where the geofile seed step
throws, startup still reaches listen and logs the seeding warning, but
the admin-user seed step never runs — the steps are not independent,
refuting the claim at this input. -/
theorem c2_counterexample :
    (startServer cfgGeofileSeedFails).isListening = true
    ∧ (startServer cfgGeofileSeedFails).state.geofilesSeedAttempted = true
    ∧ (LogLevel.warn, "Failed to seed data") ∈ (startServer cfgGeofileSeedFails).state.logs
    ∧ (startServer cfgGeofileSeedFails).state.adminSeedAttempted = false := by
  decide

/-- C2 (amended): both seed steps sit in one shared try/catch: a
geofile-seed failure is logged as a warning and startup still reaches
the listen phase, but the admin-user step is skipped; an admin-seed
failure after a successful geofile step is logged as a warning and
startup likewise proceeds to listen. -/
theorem c2_seed_failure_shared_handler (cfg : BootConfig)
    (hconn : cfg.connectOk = true) (hm : cfg.mongoRoutesOk = true)
    (he : cfg.evidenceRoutesOk = true) (hc : cfg.custodialRoutesOk = true)
    (hv : cfg.nodeEnvProduction = true ∨ cfg.viteOk = true) :
    (cfg.seedGeofilesOk = false →
      (startServer cfg).isListening = true
      ∧ (startServer cfg).state.geofilesSeedAttempted = true
      ∧ (startServer cfg).state.adminSeedAttempted = false
      ∧ (LogLevel.warn, "Failed to seed data") ∈ (startServer cfg).state.logs)
    ∧ (cfg.seedGeofilesOk = true → cfg.seedAdminOk = false →
      (startServer cfg).isListening = true
      ∧ (startServer cfg).state.geofilesSeeded = true
      ∧ (startServer cfg).state.adminSeeded = false
      ∧ (LogLevel.warn, "Failed to seed data") ∈ (startServer cfg).state.logs) := by
  obtain ⟨u, c, m, e, q, a, p, v, g, d⟩ := cfg
  revert hconn hm he hc hv
  cases u <;> cases c <;> cases m <;> cases e <;> cases q <;> cases a <;> cases p <;> cases v <;> cases g <;> cases d <;> decide

/-- Witness for C2's amended theorem at the concrete run
`cfgGeofileSeedFails`. -/
theorem c2_witness :
    (startServer cfgGeofileSeedFails).isListening = true
    ∧ (startServer cfgGeofileSeedFails).state.geofilesSeedAttempted = true
    ∧ (startServer cfgGeofileSeedFails).state.adminSeedAttempted = false
    ∧ (LogLevel.warn, "Failed to seed data") ∈ (startServer cfgGeofileSeedFails).state.logs :=
  (c2_seed_failure_shared_handler cfgGeofileSeedFails rfl rfl rfl rfl (Or.inl rfl)).1 rfl

/-- C3: in every startup run, the final state never has the MongoDB
route group registered without `mongoConnected`; and whenever the three
registration calls return normally, the MongoDB route group is
registered exactly when the connection attempt succeeded while the
evidence and custodial route groups are registered regardless of the
connection outcome. -/
theorem c3_capability_invariant (cfg : BootConfig) :
    ((startServer cfg).state.mongoConnected = false →
      (startServer cfg).state.mongoRoutesRegistered = false)
    ∧ (cfg.mongoRoutesOk = true → cfg.evidenceRoutesOk = true → cfg.custodialRoutesOk = true →
      (startServer cfg).state.mongoRoutesRegistered = cfg.connectOk
      ∧ (startServer cfg).state.evidenceRoutesRegistered = true
      ∧ (startServer cfg).state.custodialRoutesRegistered = true) := by
  obtain ⟨u, c, m, e, q, a, p, v, g, d⟩ := cfg
  cases u <;> cases c <;> cases m <;> cases e <;> cases q <;> cases a <;> cases p <;> cases v <;> cases g <;> cases d <;> decide

/-- Witness for C3 at the concrete degraded run `cfgUriSetConnFails`:
the connection failed, so the MongoDB routes are absent while evidence
and custodial routes are registered. -/
theorem c3_witness :
    (startServer cfgUriSetConnFails).state.mongoRoutesRegistered = false
    ∧ ((startServer cfgUriSetConnFails).state.mongoRoutesRegistered
        = cfgUriSetConnFails.connectOk
      ∧ (startServer cfgUriSetConnFails).state.evidenceRoutesRegistered = true
      ∧ (startServer cfgUriSetConnFails).state.custodialRoutesRegistered = true) :=
  ⟨(c3_capability_invariant cfgUriSetConnFails).1 (by decide),
   (c3_capability_invariant cfgUriSetConnFails).2 rfl rfl rfl⟩

/-- C6: if the registration of a required route group (evidence or
custodial) throws, the run never reaches `server.listen`, terminates
the process with exit status 1, and has logged the startup failure as
an error. -/
theorem c6_required_registration_failure_fatal (cfg : BootConfig)
    (h : cfg.evidenceRoutesOk = false ∨ cfg.custodialRoutesOk = false) :
    (startServer cfg).isListening = false
    ∧ (startServer cfg).exitCode = some 1
    ∧ (LogLevel.error, "Failed to start server") ∈ (startServer cfg).state.logs := by
  obtain ⟨u, c, m, e, q, a, p, v, g, d⟩ := cfg
  revert h
  cases u <;> cases c <;> cases m <;> cases e <;> cases q <;> cases a <;> cases p <;> cases v <;> cases g <;> cases d <;> decide

/-- Witness for C6 at the concrete run `cfgEvidenceFails`. -/
theorem c6_witness :
    (startServer cfgEvidenceFails).isListening = false
    ∧ (startServer cfgEvidenceFails).exitCode = some 1
    ∧ (LogLevel.error, "Failed to start server") ∈ (startServer cfgEvidenceFails).state.logs :=
  c6_required_registration_failure_fatal cfgEvidenceFails (Or.inl rfl)

/-- C7: in any run that passes route registration, the static strategy
recorded in the final state is the prebuilt bundle exactly when
`NODE_ENV` is `production` and the live toolchain otherwise — a choice
keyed solely on the environment mode; and in production the catch-all
answers every request whose path is not prefixed `/api` with the
bundle's entry document. -/
theorem c7_static_strategy_selection (cfg : BootConfig)
    (hm : cfg.connectOk = true → cfg.mongoRoutesOk = true)
    (he : cfg.evidenceRoutesOk = true) (hc : cfg.custodialRoutesOk = true)
    (hv : cfg.nodeEnvProduction = false → cfg.viteOk = true) :
    (startServer cfg).state.staticStrategy =
      some (if cfg.nodeEnvProduction then StaticStrategy.prebuiltBundle
            else StaticStrategy.viteDev)
    ∧ (cfg.nodeEnvProduction = true →
        ∀ reqPath : String, pathStartsWith reqPath "/api" = false →
          productionCatchAll reqPath = some CatchAllResult.entryDocument) := by
  constructor
  · obtain ⟨u, c, m, e, q, a, p, v, g, d⟩ := cfg
    revert hm he hc hv
    cases u <;> cases c <;> cases m <;> cases e <;> cases q <;> cases a <;> cases p <;> cases v <;> cases g <;> cases d <;> decide
  · intro _ reqPath hpath
    unfold productionCatchAll
    rw [hpath]
    rfl

/-- Witness for C7 at the fully successful production run. -/
theorem c7_witness :
    (startServer cfgAllOkProd).state.staticStrategy =
      some (if cfgAllOkProd.nodeEnvProduction then StaticStrategy.prebuiltBundle
            else StaticStrategy.viteDev)
    ∧ (cfgAllOkProd.nodeEnvProduction = true →
        ∀ reqPath : String, pathStartsWith reqPath "/api" = false →
          productionCatchAll reqPath = some CatchAllResult.entryDocument) :=
  c7_static_strategy_selection cfgAllOkProd (fun _ => rfl) rfl rfl (by decide)

/-- C8: in production, a request whose path is prefixed `/api` that
reaches the catch-all handler gets no response from it: the handler
body sends nothing. -/
theorem c8_api_path_catchall_sends_nothing (reqPath : String)
    (h : pathStartsWith reqPath "/api" = true) :
    productionCatchAll reqPath = none := by
  unfold productionCatchAll
  rw [h]
  rfl

/-- Witness for C8 at the unmatched API path `/api/unknown`. -/
theorem c8_witness :
    pathStartsWith "/api/unknown" "/api" = true
    ∧ productionCatchAll "/api/unknown" = none :=
  ⟨by decide, c8_api_path_catchall_sends_nothing "/api/unknown" (by decide)⟩

end Dot
